import Mathlib

/-!
Verification of the admission-control (rate-limiting) engine and the typed
error propagation pipeline of the service.

Sources embedded:
* `src/errorHandler.js` — AppError hierarchy and the terminal `errorHandler`.
* `src/server.js` — `validateApiKey` credential gate and middleware mounting.
* `src/unnamed/part_001` (rateLimiter.js) — the four limiter configurations
  (`apiLimiter`, `createLimiter`, `authLimiter`, `createApiKeyLimiter`).

The counting engine itself (window counter store, per-request evaluation) lives
in the `express-rate-limit` dependency, which is not part of this repository;
it is modelled from the specification (§4.1–§4.2) where needed.
-/

/-- A request descriptor as the middleware sees it: method, path, the client
address `req.ip`, the `x-api-key` header value, and the `apiKey` query
parameter. Absent header/query values are `none`, mirroring `undefined`. -/
structure Request where
  method : String
  path : String
  ip : String
  headerApiKey : Option String
  queryApiKey : Option String
deriving DecidableEq

/-- JavaScript truthiness of a string-or-undefined value: `undefined` and the
empty string are falsy; every other string is truthy. -/
def jsTruthy : Option String → Bool
  | none => false
  | some s => s ≠ ""

/-- JavaScript `a || b` on string-or-undefined values: yields `a` when `a` is
truthy, otherwise `b` (even when `b` is itself falsy). -/
def jsOr (a b : Option String) : Option String :=
  if jsTruthy a then a else b

/-! ## Error taxonomy (`src/errorHandler.js`) -/

/-- An `AppError` value: `message` and `statusCode` as set by the constructor
chain, with the `isOperational` marker. -/
structure AppError where
  message : String
  statusCode : Nat
  isOperational : Bool
deriving DecidableEq

/-- `class ValidationError extends AppError { constructor(message) { super(message, 400) } }` -/
def ValidationError (message : String) : AppError :=
  { message := message, statusCode := 400, isOperational := true }

/-- `class NotFoundError extends AppError { constructor(message) { super(message, 404) } }` -/
def NotFoundError (message : String) : AppError :=
  { message := message, statusCode := 404, isOperational := true }

/-- `class UnauthorizedError extends AppError { constructor(message) { super(message, 401) } }` -/
def UnauthorizedError (message : String) : AppError :=
  { message := message, statusCode := 401, isOperational := true }

/-- `class ForbiddenError extends AppError { constructor(message) { super(message, 403) } }` -/
def ForbiddenError (message : String) : AppError :=
  { message := message, statusCode := 403, isOperational := true }

/-- A raw JavaScript error value as received by `errorHandler(err, req, res, next)`:
a `message` string (every `Error` has one, possibly empty), an optional
`statusCode` (set only on `AppError` instances), and a `stack` string. -/
structure JsError where
  message : String
  statusCode : Option Nat
  stack : String
deriving DecidableEq

/-- Throwing a typed `AppError` delivers it to the handler with its
`statusCode` set and a captured stack trace. -/
def toJsError (e : AppError) (stack : String) : JsError :=
  { message := e.message, statusCode := some e.statusCode, stack := stack }

/-- The wire body `{ error: { message, statusCode, path, timestamp } }` built by
`res.status(statusCode).json({...})` in `errorHandler`. -/
structure ErrorEnvelope where
  message : String
  statusCode : Nat
  path : String
  timestamp : String
deriving DecidableEq

/-- The structured record passed to `console.error` in `errorHandler`. -/
structure LogRecord where
  timestamp : String
  method : String
  path : String
  statusCode : Nat
  message : String
  stack : String
deriving DecidableEq

/-- An HTTP response carrying an error envelope. -/
structure ErrResponse where
  status : Nat
  body : ErrorEnvelope
deriving DecidableEq

/-- `errorHandler(err, req, res, next)` from `src/errorHandler.js`:
`statusCode = statusCode || 500` (undefined or `0` become 500),
`message = message || 'Internal Server Error'` (empty becomes the default),
then one `console.error` log record and one JSON response are produced.
`now` stands for `new Date().toISOString()`. -/
def errorHandler (err : JsError) (req : Request) (now : String) :
    ErrResponse × LogRecord :=
  let statusCode : Nat :=
    match err.statusCode with
    | none => 500
    | some n => if n = 0 then 500 else n
  let message : String := if err.message = "" then "Internal Server Error" else err.message
  ({ status := statusCode,
     body := { message := message, statusCode := statusCode,
               path := req.path, timestamp := now } },
   { timestamp := now, method := req.method, path := req.path,
     statusCode := statusCode, message := message, stack := err.stack })

/-! ## Window counter store and limiter policy

Modelled from the spec: the `express-rate-limit` engine is a dependency, not
repository code; its counter store and evaluation loop follow §4.1–§4.2. -/

/-- Modelled from the spec: a counting window `{ count, windowStart }` held by
the window counter store under one key (§3, CounterWindow). The configured
duration lives on the policy. -/
structure CounterWindow where
  count : Nat
  windowStart : Nat
deriving DecidableEq

/-- Modelled from the spec: the window counter store, a mapping from limiter
keys to counter windows, lazily populated (§4.1). -/
def Store : Type := String → Option CounterWindow

/-- The store at process start: no keys observed yet. -/
def emptyStore : Store := fun _ => none

/-- Modelled from the spec: `increment(key)` (§4.1) — fetch or create the
window for `key`, reset it if `now − windowStart ≥ windowDuration`, add one,
and return the post-increment window together with the updated store. -/
def increment (s : Store) (key : String) (now dur : Nat) : CounterWindow × Store :=
  let w0 := (s key).getD { count := 0, windowStart := now }
  let w1 := if now - w0.windowStart ≥ dur then { count := 0, windowStart := now } else w0
  let w2 : CounterWindow := { count := w1.count + 1, windowStart := w1.windowStart }
  (w2, fun k => if k = key then some w2 else s k)

/-- A 429-class rejection response produced by a limiter's `handler`. -/
structure Rejection where
  status : Nat
  body : String
deriving DecidableEq

/-- A limiter's per-request outcome. -/
inductive Decision where
  | admitted
  | rejected (r : Rejection)
deriving DecidableEq

/-- A limiter policy as configured by a `rateLimit({...})` call in
`src/unnamed/part_001`: window duration, quota (`max`), key derivation, and
the rejection handler. -/
structure LimiterPolicy where
  windowMs : Nat
  max : Nat
  keyGenerator : Request → String
  handler : Request → Rejection

/-- Modelled from the spec: one evaluation of a limiter policy (§4.2) —
derive the key, increment its window, and reject exactly when the
post-increment count strictly exceeds the quota (count == quota is still
admitted; count == quota+1 is the first rejection). -/
def evaluate (p : LimiterPolicy) (s : Store) (req : Request) (now : Nat) :
    Decision × Store :=
  (if (increment s (p.keyGenerator req) now p.windowMs).1.count > p.max
   then Decision.rejected (p.handler req)
   else Decision.admitted,
   (increment s (p.keyGenerator req) now p.windowMs).2)

/-! ## The four limiter configurations (`src/unnamed/part_001`) -/

/-- `apiLimiter`: 15-minute window, max 100, keyed by client IP (the library
default key), 429 handler from the source. -/
def apiLimiter : LimiterPolicy :=
  { windowMs := 15 * 60 * 1000
    max := 100
    keyGenerator := fun req => req.ip
    handler := fun _ =>
      { status := 429, body := "Too many requests, please try again later." } }

/-- `createLimiter`: 1-hour window, max 10, keyed by client IP, 429 handler
from the source. -/
def createLimiter : LimiterPolicy :=
  { windowMs := 60 * 60 * 1000
    max := 10
    keyGenerator := fun req => req.ip
    handler := fun _ =>
      { status := 429, body := "Too many create operations, please try again in 1 hour." } }

/-- `authLimiter`: 15-minute window, max 5, keyed by client IP,
`skipSuccessfulRequests: true` (a hit is kept only when the response that
follows is a failure — on the one path where this limiter runs, the response
is always 403 or 429, so every hit is kept), 429 lockout handler. -/
def authLimiter : LimiterPolicy :=
  { windowMs := 15 * 60 * 1000
    max := 5
    keyGenerator := fun req => req.ip
    handler := fun _ =>
      { status := 429, body := "Too many authentication failures. Account temporarily locked." } }

/-- The credential extraction in `createApiKeyLimiter`'s `keyGenerator`:
`req.headers['x-api-key'] || req.query.apiKey`. -/
def limiterApiKey (req : Request) : Option String :=
  jsOr req.headerApiKey req.queryApiKey

/-- `createApiKeyLimiter(maxRequests, windowMinutes)`: per-API-key limiter.
`keyGenerator` returns `"apikey:" + apiKey` when a credential is present and
otherwise falls back to the raw `req.ip` string, exactly as in the source
(no address normalization is performed). -/
def createApiKeyLimiter (maxRequests windowMinutes : Nat) : LimiterPolicy :=
  { windowMs := windowMinutes * 60 * 1000
    max := maxRequests
    keyGenerator := fun req =>
      let apiKey := limiterApiKey req
      if jsTruthy apiKey then "apikey:" ++ apiKey.getD "" else req.ip
    handler := fun _ =>
      { status := 429
        body := "API key rate limit exceeded. Max " ++ toString maxRequests ++
                " requests per " ++ toString windowMinutes ++ " minutes." } }

/-- `const perKeyLimiter = createApiKeyLimiter(1000, 60)` from `src/server.js`. -/
def perKeyLimiter : LimiterPolicy := createApiKeyLimiter 1000 60

/-! ## Credential gate (`src/server.js`) -/

/-- `VALID_API_KEYS` from `src/server.js`. -/
def VALID_API_KEYS : List String := ["your-secret-key-123", "another-key-456"]

/-- The credential extraction in `validateApiKey`:
`req.headers['x-api-key'] || req.query.apiKey`. -/
def gateApiKey (req : Request) : Option String :=
  jsOr req.headerApiKey req.queryApiKey

/-- Outcome of the `validateApiKey` middleware: `proceed` (`next()` was
called), `raised e` (a typed `AppError` was thrown into the error pipeline),
or `limited r` (the auth limiter's 429 handler wrote the response). -/
inductive GateOutcome where
  | proceed
  | raised (e : AppError)
  | limited (r : Rejection)
deriving DecidableEq

/-- `validateApiKey(req, res, next)` from `src/server.js`, threaded with the
auth limiter's store: missing credential throws `UnauthorizedError` without
touching the limiter; an unknown credential runs `authLimiter` first — if it
admits, its `next` callback throws `ForbiddenError`; if it rejects, its 429
handler responds and the callback never runs. A valid credential calls
`next()` and never touches the limiter. -/
def validateApiKey (req : Request) (s : Store) (now : Nat) : GateOutcome × Store :=
  if jsTruthy (gateApiKey req) then
    if VALID_API_KEYS.contains ((gateApiKey req).getD "") then
      (GateOutcome.proceed, s)
    else
      match (evaluate authLimiter s req now).1 with
      | Decision.admitted =>
          (GateOutcome.raised (ForbiddenError "Invalid API key"),
           (evaluate authLimiter s req now).2)
      | Decision.rejected r =>
          (GateOutcome.limited r, (evaluate authLimiter s req now).2)
  else
    (GateOutcome.raised (UnauthorizedError "API key is required"), s)

/-- Running the credential gate over a sequence of requests, threading the
auth limiter's store. -/
def gateRun (now : Nat) : List Request → Store → Store
  | [], s => s
  | r :: rs, s => gateRun now rs (validateApiKey r s now).2

/-- The count a key's window currently contributes at time `now`: zero when
the key is unseen or its window has expired, the stored count otherwise. -/
def effCount (s : Store) (k : String) (now dur : Nat) : Nat :=
  match s k with
  | none => 0
  | some w => if now - w.windowStart ≥ dur then 0 else w.count

/-! ## Middleware chain for the create route (`src/server.js`)

`app.use('/api/', apiLimiter)` is mounted first, `app.use('/api/', perKeyLimiter)`
second, and `app.post('/api/users', createLimiter, validateApiKey, handler)`
places the create-operation limiter third on the create route. Each limiter
middleware either writes its 429 rejection (and does not call `next`) or
admits and passes control on. -/

/-- The mutable stores of the three limiter tiers on the create route; each
`rateLimit` instance owns an independent memory store. -/
structure PipelineState where
  apiStore : Store
  keyStore : Store
  createStore : Store

/-- One pass of a create-route request through the mounted middleware chain
(general tier, then per-key tier, then create tier): the first rejecting tier
responds and later tiers are not evaluated; only when all three admit does
control reach the business handler (final `Bool`: handler invoked). -/
def createRoutePipeline (req : Request) (st : PipelineState) (now : Nat) :
    Option Rejection × PipelineState × Bool :=
  let ea := evaluate apiLimiter st.apiStore req now
  match ea.1 with
  | Decision.rejected r =>
      (some r, { apiStore := ea.2, keyStore := st.keyStore, createStore := st.createStore }, false)
  | Decision.admitted =>
    let ek := evaluate perKeyLimiter st.keyStore req now
    match ek.1 with
    | Decision.rejected r =>
        (some r, { apiStore := ea.2, keyStore := ek.2, createStore := st.createStore }, false)
    | Decision.admitted =>
      let ec := evaluate createLimiter st.createStore req now
      match ec.1 with
      | Decision.rejected r =>
          (some r, { apiStore := ea.2, keyStore := ek.2, createStore := ec.2 }, false)
      | Decision.admitted =>
          (none, { apiStore := ea.2, keyStore := ek.2, createStore := ec.2 }, true)

/-! ## Repeated evaluation of one limiter within a window -/

/-- Evaluating a limiter policy on the same request once per timestamp in
`ts`, threading the store, and collecting the decisions in order. -/
def evalSeq (p : LimiterPolicy) (req : Request) : List Nat → Store → List Decision × Store
  | [], s => ([], s)
  | t :: ts, s =>
    let e := evaluate p s req t
    let rest := evalSeq p req ts e.2
    (e.1 :: rest.1, rest.2)

/-! ## Concrete requests used as witnesses -/

/-- A request presenting a valid credential in the header. -/
def goodReq : Request :=
  { method := "GET", path := "/api/users", ip := "198.51.100.7"
    headerApiKey := some "your-secret-key-123", queryApiKey := none }

/-- A request presenting an unknown credential in the header. -/
def badReq : Request :=
  { method := "GET", path := "/api/users", ip := "198.51.100.7"
    headerApiKey := some "wrong-key", queryApiKey := none }

/-- A request presenting no credential at all. -/
def noKeyReq : Request :=
  { method := "GET", path := "/api/users", ip := "198.51.100.7"
    headerApiKey := none, queryApiKey := none }

/-- A credential-less request whose client address is the plain IPv4 text. -/
def reqPlainIp : Request :=
  { method := "GET", path := "/api/users", ip := "203.0.113.5"
    headerApiKey := none, queryApiKey := none }

/-- The same client as `reqPlainIp`, with its address rendered in the
IPv4-mapped IPv6 textual form. -/
def reqMappedIp : Request :=
  { method := "GET", path := "/api/users", ip := "::ffff:203.0.113.5"
    headerApiKey := none, queryApiKey := none }

/-- Indexing type for the four constructible `AppError` variants. -/
inductive Variant where
  | validation
  | notFound
  | unauthorized
  | forbidden
deriving DecidableEq

/-- The constructor the taxonomy associates with each variant. -/
def variantError : Variant → String → AppError
  | Variant.validation, m => ValidationError m
  | Variant.notFound, m => NotFoundError m
  | Variant.unauthorized, m => UnauthorizedError m
  | Variant.forbidden, m => ForbiddenError m

/-- An unexpected non-AppError failure, as a plain `Error` value: a message,
no `statusCode`, and a stack trace. -/
def internalFailure : JsError :=
  { message := "sensitive internal detail", statusCode := none, stack := "trace" }

/-- A second unexpected non-AppError failure used as a witness input. -/
def boomFailure : JsError :=
  { message := "boom", statusCode := none, stack := "s" }

/-- The 429 lockout rejection built by `authLimiter`'s handler. -/
def authLockout : Rejection :=
  { status := 429, body := "Too many authentication failures. Account temporarily locked." }

/-- The 429 rejection built by `apiLimiter`'s handler. -/
def generalRejection : Rejection :=
  { status := 429, body := "Too many requests, please try again later." }

/-- An auth-limiter store in which the client behind `badReq` has already
accumulated 5 failures in the current window. -/
def authStore5 : Store := fun k =>
  if k = "198.51.100.7" then some { count := 5, windowStart := 0 } else none

/-- Create-route pipeline state in which the general tier's window for the
client behind `noKeyReq` is already at its quota of 100. -/
def st100 : PipelineState :=
  { apiStore := fun k =>
      if k = "198.51.100.7" then some { count := 100, windowStart := 0 } else none
    keyStore := emptyStore
    createStore := emptyStore }

/-! ## Helper lemmas on the counter engine -/

/-- Evaluating a policy on a key the store has never seen creates the window
with count 1 at `now` and admits unless the quota is zero. -/
theorem evaluate_fresh (p : LimiterPolicy) (req : Request) (now : Nat) (s : Store)
    (hs : s (p.keyGenerator req) = none) :
    evaluate p s req now =
      ((if 1 > p.max then Decision.rejected (p.handler req) else Decision.admitted),
       fun k => if k = p.keyGenerator req then
         some { count := 1, windowStart := now } else s k) := by
  unfold evaluate increment
  rw [hs]
  simp

/-- Evaluating a policy on a key whose live window holds count `c` and started
at `t0`, at a time still inside the window, bumps the count to `c + 1` and
admits exactly when `c + 1 ≤ max`. -/
theorem evaluate_at (p : LimiterPolicy) (req : Request) (now c t0 : Nat) (s : Store)
    (hs : s (p.keyGenerator req) = some { count := c, windowStart := t0 })
    (hw : now - t0 < p.windowMs) :
    evaluate p s req now =
      ((if c + 1 > p.max then Decision.rejected (p.handler req) else Decision.admitted),
       fun k => if k = p.keyGenerator req then
         some { count := c + 1, windowStart := t0 } else s k) := by
  unfold evaluate increment
  rw [hs]
  have hne : ¬ (now - t0 ≥ p.windowMs) := by omega
  simp [hne]

/-- Running a policy over a list of in-window timestamps from a live window at
count `c` admits every request while `c + length ≤ max`, and leaves the
window at count `c + length`. -/
theorem evalSeq_all_admitted (p : LimiterPolicy) (req : Request) :
    ∀ (ts : List Nat) (c t0 : Nat) (s : Store),
      s (p.keyGenerator req) = some { count := c, windowStart := t0 } →
      (∀ t ∈ ts, t - t0 < p.windowMs) →
      c + ts.length ≤ p.max →
      (∀ d ∈ (evalSeq p req ts s).1, d = Decision.admitted) ∧
      (evalSeq p req ts s).2 (p.keyGenerator req) =
        some { count := c + ts.length, windowStart := t0 } := by
  intro ts
  induction ts with
  | nil =>
    intro c t0 s hs _ _
    simpa [evalSeq] using hs
  | cons t ts ih =>
    intro c t0 s hs hw hq
    have hstep := evaluate_at p req t c t0 s hs (hw t (by simp))
    have hs' : (evaluate p s req t).2 (p.keyGenerator req) =
        some { count := c + 1, windowStart := t0 } := by
      rw [hstep]
      simp
    have hrest := ih (c + 1) t0 (evaluate p s req t).2 hs'
      (fun t' ht' => hw t' (by simp [ht'])) (by simp at hq ⊢; omega)
    refine ⟨?_, ?_⟩
    · intro d hd
      have hd' : d = (evaluate p s req t).1 ∨ d ∈ (evalSeq p req ts (evaluate p s req t).2).1 := by
        simpa [evalSeq] using hd
      rcases hd' with h | h
      · have hadm : (evaluate p s req t).1 = Decision.admitted := by
          rw [hstep]
          have : ¬ (c + 1 > p.max) := by simp at hq; omega
          simp [this]
        rw [h, hadm]
      · exact hrest.1 d h
    · have : (evalSeq p req (t :: ts) s).2 = (evalSeq p req ts (evaluate p s req t).2).2 := by
        simp [evalSeq]
      rw [this, hrest.2]
      simp
      omega

/-- A rejection returned by `evaluate` is always the one built by the
policy's configured handler. -/
theorem evaluate_rejected_handler (p : LimiterPolicy) (s : Store) (req : Request)
    (now : Nat) (r : Rejection)
    (h : (evaluate p s req now).1 = Decision.rejected r) :
    r = p.handler req := by
  have h' : (if (increment s (p.keyGenerator req) now p.windowMs).1.count > p.max
      then Decision.rejected (p.handler req)
      else Decision.admitted) = Decision.rejected r := h
  split at h'
  · exact (Decision.rejected.inj h').symm
  · exact absurd h' (by simp)

/-- Incrementing a key raises its in-window count by exactly one, whether the
key was fresh, expired, or live. -/
theorem effCount_increment (s : Store) (k : String) (now dur : Nat) (hdur : 0 < dur) :
    effCount (increment s k now dur).2 k now dur = effCount s k now dur + 1 := by
  unfold increment effCount
  cases h : s k with
  | none =>
    have : ¬ (now - now ≥ dur) := by omega
    simp [h, this]
    omega
  | some w =>
    by_cases hexp : now - w.windowStart ≥ dur
    · have : ¬ (now - now ≥ dur) := by omega
      simp [h, hexp, this]
      omega
    · simp [h, hexp]

/-! ## Claim theorems -/

/-- C1 (counterexample): a failure that is not a typed `AppError` (no
`statusCode` set) renders status 500, but its original message appears
verbatim in the client-visible envelope — it is not redacted. -/
theorem errorHandler_reveals_internal_message :
    internalFailure.statusCode = none ∧
    (errorHandler internalFailure noKeyReq "2026-01-01T00:00:00Z").1.status = 500 ∧
    (errorHandler internalFailure noKeyReq "2026-01-01T00:00:00Z").1.body.message =
      "sensitive internal detail" :=
  ⟨rfl, rfl, rfl⟩

/-- C1 (amended): for every failure that is not a typed `AppError` (no
`statusCode` set), the terminal error handler renders status 500 and passes
the original failure message through unredacted to both the client-visible
envelope and the log side-channel, substituting "Internal Server Error" only
when the message is empty. -/
theorem errorHandler_internal_passthrough (err : JsError) (req : Request) (now : String)
    (h : err.statusCode = none) :
    (errorHandler err req now).1.status = 500 ∧
    (errorHandler err req now).1.body.message =
      (if err.message = "" then "Internal Server Error" else err.message) ∧
    (errorHandler err req now).2.message = (errorHandler err req now).1.body.message ∧
    (errorHandler err req now).2.statusCode = 500 := by
  simp [errorHandler, h]

/-- C1 (witness): the amended statement evaluated where the failure carries
message "boom" and no status code. -/
theorem errorHandler_internal_passthrough_witness :
    boomFailure.statusCode = none ∧
    ((errorHandler boomFailure noKeyReq "T").1.status = 500 ∧
     (errorHandler boomFailure noKeyReq "T").1.body.message =
       (if boomFailure.message = "" then "Internal Server Error" else boomFailure.message) ∧
     (errorHandler boomFailure noKeyReq "T").2.message =
       (errorHandler boomFailure noKeyReq "T").1.body.message ∧
     (errorHandler boomFailure noKeyReq "T").2.statusCode = 500) :=
  ⟨rfl, errorHandler_internal_passthrough boomFailure noKeyReq "T" rfl⟩

/-- C5 (code divergence): the per-API-key limiter's key derivation performs no
address normalization — the plain IPv4 text and the IPv4-mapped IPv6 text of
the same client address derive two distinct limiter keys, fragmenting that
client's traffic across two counters. -/
theorem keyGenerator_fragments_client_address :
    perKeyLimiter.keyGenerator reqPlainIp = "203.0.113.5" ∧
    perKeyLimiter.keyGenerator reqMappedIp = "::ffff:203.0.113.5" ∧
    perKeyLimiter.keyGenerator reqPlainIp ≠ perKeyLimiter.keyGenerator reqMappedIp := by
  refine ⟨rfl, rfl, ?_⟩
  decide

/-- C7: each `AppError` variant's constructor fixes the HTTP status from the
variant alone — 400, 404, 401, 403 — for every message, and a failure with no
status code (the `Internal` wrap) always renders 500; the constructors accept
only a message, so no caller can override the status. -/
theorem appError_status_fixed_per_variant (msg stack : String) (req : Request) (now : String) :
    (ValidationError msg).statusCode = 400 ∧
    (NotFoundError msg).statusCode = 404 ∧
    (UnauthorizedError msg).statusCode = 401 ∧
    (ForbiddenError msg).statusCode = 403 ∧
    (errorHandler { message := msg, statusCode := none, stack := stack } req now).1.status = 500 :=
  ⟨rfl, rfl, rfl, rfl, rfl⟩

/-- C8: the terminal translator is total and deterministic — for every typed
`AppError` variant it produces exactly one response whose envelope carries
the variant's status code, the request path, and the timestamp, plus exactly
one log record carrying method, path, the same status, the same message as
the envelope, and the failure's stack trace. -/
theorem errorHandler_total_deterministic (v : Variant) (msg stack : String)
    (req : Request) (now : String) :
    (errorHandler (toJsError (variantError v msg) stack) req now).1.status =
      (variantError v msg).statusCode ∧
    (errorHandler (toJsError (variantError v msg) stack) req now).1.body.statusCode =
      (variantError v msg).statusCode ∧
    (errorHandler (toJsError (variantError v msg) stack) req now).1.body.path = req.path ∧
    (errorHandler (toJsError (variantError v msg) stack) req now).1.body.timestamp = now ∧
    (errorHandler (toJsError (variantError v msg) stack) req now).2.method = req.method ∧
    (errorHandler (toJsError (variantError v msg) stack) req now).2.path = req.path ∧
    (errorHandler (toJsError (variantError v msg) stack) req now).2.statusCode =
      (variantError v msg).statusCode ∧
    (errorHandler (toJsError (variantError v msg) stack) req now).2.stack = stack ∧
    (errorHandler (toJsError (variantError v msg) stack) req now).2.message =
      (errorHandler (toJsError (variantError v msg) stack) req now).1.body.message ∧
    (errorHandler (toJsError (variantError v msg) stack) req now).2.timestamp = now := by
  cases v <;>
    simp [errorHandler, toJsError, variantError, ValidationError, NotFoundError,
      UnauthorizedError, ForbiddenError]

/-- C10: the credential gate and the per-API-key limiter's key derivation
extract the presented credential by the same rule (`x-api-key` header first,
`apiKey` query parameter as fallback), and the limiter key is
`"apikey:" + credential` exactly when the gate sees a credential, falling
back to the client IP otherwise. -/
theorem credential_extraction_consistent (req : Request) :
    limiterApiKey req = gateApiKey req ∧
    (jsTruthy req.headerApiKey = true → gateApiKey req = req.headerApiKey) ∧
    perKeyLimiter.keyGenerator req =
      (if jsTruthy (gateApiKey req) then "apikey:" ++ (gateApiKey req).getD "" else req.ip) := by
  refine ⟨rfl, ?_, rfl⟩
  intro h
  simp [gateApiKey, jsOr, h]

/-- C10 (witness): the extraction agreement evaluated on a request carrying a
valid credential in the header. -/
theorem credential_extraction_consistent_witness :
    limiterApiKey goodReq = gateApiKey goodReq ∧
    jsTruthy goodReq.headerApiKey = true ∧
    gateApiKey goodReq = goodReq.headerApiKey ∧
    perKeyLimiter.keyGenerator goodReq = "apikey:your-secret-key-123" :=
  ⟨(credential_extraction_consistent goodReq).1, by decide,
   (credential_extraction_consistent goodReq).2.1 (by decide), by decide⟩

/-- C2: for every limiter policy and key, within one window the first
`n ≤ quota` evaluations all admit, and once the admitted count has reached the
quota, the next in-window evaluation — the `(quota+1)`-th request — is
rejected with the policy's rejection response: count == quota is the last
admitted request, count == quota+1 the first rejected. -/
theorem limiter_quota_boundary (p : LimiterPolicy) (req : Request)
    (t0 tnext : Nat) (ts : List Nat)
    (hwin : ∀ t ∈ ts, t - t0 < p.windowMs)
    (hnext : tnext - t0 < p.windowMs) :
    (ts.length + 1 ≤ p.max →
      ∀ d ∈ (evalSeq p req (t0 :: ts) emptyStore).1, d = Decision.admitted) ∧
    (ts.length + 1 = p.max →
      (evaluate p (evalSeq p req (t0 :: ts) emptyStore).2 req tnext).1 =
        Decision.rejected (p.handler req)) := by
  have h0 := evaluate_fresh p req t0 emptyStore rfl
  have hs1 : (evaluate p emptyStore req t0).2 (p.keyGenerator req) =
      some { count := 1, windowStart := t0 } := by
    rw [h0]
    simp
  constructor
  · intro hn d hd
    have hd' : d = (evaluate p emptyStore req t0).1 ∨
        d ∈ (evalSeq p req ts (evaluate p emptyStore req t0).2).1 := by
      simpa [evalSeq] using hd
    rcases hd' with h | h
    · rw [h, h0]
      have hle : ¬ (1 > p.max) := by omega
      simp [hle]
    · exact (evalSeq_all_admitted p req ts 1 t0 _ hs1 hwin (by omega)).1 d h
  · intro hn
    have hfin := (evalSeq_all_admitted p req ts 1 t0 _ hs1 hwin (by omega)).2
    have hseq : (evalSeq p req (t0 :: ts) emptyStore).2 =
        (evalSeq p req ts (evaluate p emptyStore req t0).2).2 := by
      simp [evalSeq]
    rw [hseq]
    have hev := evaluate_at p req tnext (1 + ts.length) t0 _ hfin hnext
    rw [hev]
    have hgt : 1 + ts.length + 1 > p.max := by omega
    simp [hgt]

/-- C2 (witness): the general limiter (`quota = 100`) run 100 times at one
instant admits every request, and the 101st evaluation in the same window is
rejected with its 429 response. -/
theorem limiter_quota_boundary_witness :
    (∀ d ∈ (evalSeq apiLimiter noKeyReq (0 :: List.replicate 99 0) emptyStore).1,
      d = Decision.admitted) ∧
    (evaluate apiLimiter
        (evalSeq apiLimiter noKeyReq (0 :: List.replicate 99 0) emptyStore).2
        noKeyReq 0).1 = Decision.rejected (apiLimiter.handler noKeyReq) :=
  ⟨(limiter_quota_boundary apiLimiter noKeyReq 0 0 (List.replicate 99 0)
      (fun t ht => by rw [List.eq_of_mem_replicate ht]; decide) (by decide)).1 (by decide),
   (limiter_quota_boundary apiLimiter noKeyReq 0 0 (List.replicate 99 0)
      (fun t ht => by rw [List.eq_of_mem_replicate ht]; decide) (by decide)).2 (by decide)⟩

/-- C3: when a credential is presented but unknown, the auth-failure limiter
runs before the Forbidden failure is surfaced — the gate's resulting store is
always the limiter's post-evaluation store — and when the limiter rejects,
its 429 lockout response is what the caller receives: the outcome is
`limited`, never `raised`, so the Forbidden error is superseded, not
surfaced alongside. -/
theorem gate_invalid_limiter_precedence (req : Request) (s : Store) (now : Nat)
    (hp : jsTruthy (gateApiKey req) = true)
    (hv : VALID_API_KEYS.contains ((gateApiKey req).getD "") = false) :
    (validateApiKey req s now).2 = (evaluate authLimiter s req now).2 ∧
    ∀ r, (evaluate authLimiter s req now).1 = Decision.rejected r →
      (validateApiKey req s now).1 = GateOutcome.limited r ∧
      r.status = 429 ∧
      ∀ e, (validateApiKey req s now).1 ≠ GateOutcome.raised e := by
  have hv' : ¬ ((gateApiKey req).getD "" ∈ VALID_API_KEYS) := by simpa using hv
  constructor
  · unfold validateApiKey
    rcases hev : (evaluate authLimiter s req now).1 with _ | r0 <;>
      simp [hp, hv, hv', hev]
  · intro r hr
    have hrh : r = authLimiter.handler req :=
      evaluate_rejected_handler authLimiter s req now r hr
    have hgoal : (validateApiKey req s now).1 = GateOutcome.limited r := by
      unfold validateApiKey
      simp [hp, hv, hv', hr]
    refine ⟨hgoal, ?_, ?_⟩
    · rw [hrh]
      rfl
    · intro e
      rw [hgoal]
      simp

/-- C3 (witness): with the client's auth-failure window already at the quota
of 5, one more invalid-credential request yields the limiter's 429 lockout
response rather than the 403 Forbidden error. -/
theorem gate_invalid_limiter_precedence_witness :
    (validateApiKey badReq authStore5 0).1 = GateOutcome.limited authLockout :=
  ((gate_invalid_limiter_precedence badReq authStore5 0 (by decide) (by decide)).2
    authLockout (by decide)).1

/-- C4: a request presenting no credential fails with `UnauthorizedError`
(status 401) and the auth-failure limiter's store is returned untouched —
the limiter is never invoked on the missing-credential path. -/
theorem gate_missing_credential_unauthorized (req : Request) (s : Store) (now : Nat)
    (h : jsTruthy (gateApiKey req) = false) :
    validateApiKey req s now =
      (GateOutcome.raised (UnauthorizedError "API key is required"), s) ∧
    (UnauthorizedError "API key is required").statusCode = 401 := by
  constructor
  · unfold validateApiKey
    simp [h]
  · rfl

/-- C4 (witness): the missing-credential outcome evaluated on a request with
neither header nor query credential, against the empty store. -/
theorem gate_missing_credential_unauthorized_witness :
    jsTruthy (gateApiKey noKeyReq) = false ∧
    validateApiKey noKeyReq emptyStore 0 =
      (GateOutcome.raised (UnauthorizedError "API key is required"), emptyStore) :=
  ⟨by decide, (gate_missing_credential_unauthorized noKeyReq emptyStore 0 (by decide)).1⟩

/-- C6: under the failures-only counting of the auth tier, a sequence of
requests that all validate successfully leaves the auth store untouched, and
each request whose credential validation fails raises that client's in-window
count by exactly one. -/
theorem failures_only_counter (now : Nat) :
    (∀ reqs : List Request,
      (∀ r ∈ reqs, jsTruthy (gateApiKey r) = true ∧
          VALID_API_KEYS.contains ((gateApiKey r).getD "") = true) →
      ∀ s : Store, gateRun now reqs s = s) ∧
    (∀ (r : Request) (s : Store),
      jsTruthy (gateApiKey r) = true →
      VALID_API_KEYS.contains ((gateApiKey r).getD "") = false →
      effCount ((validateApiKey r s now).2) r.ip now authLimiter.windowMs =
        effCount s r.ip now authLimiter.windowMs + 1) := by
  constructor
  · intro reqs
    induction reqs with
    | nil =>
      intro _ s
      rfl
    | cons r rs ih =>
      intro h s
      have hr := h r (by simp)
      have hmem : (gateApiKey r).getD "" ∈ VALID_API_KEYS := by simpa using hr.2
      have hstep : validateApiKey r s now = (GateOutcome.proceed, s) := by
        unfold validateApiKey
        simp [hr.1, hr.2, hmem]
      show gateRun now rs (validateApiKey r s now).2 = s
      rw [hstep]
      exact ih (fun r' hr' => h r' (by simp [hr'])) s
  · intro r s hp hv
    have hv' : ¬ ((gateApiKey r).getD "" ∈ VALID_API_KEYS) := by simpa using hv
    have hstore : (validateApiKey r s now).2 = (evaluate authLimiter s r now).2 := by
      unfold validateApiKey
      rcases hev : (evaluate authLimiter s r now).1 with _ | r0 <;>
        simp [hp, hv, hv', hev]
    have hstore2 : (evaluate authLimiter s r now).2 =
        (increment s (authLimiter.keyGenerator r) now authLimiter.windowMs).2 := rfl
    have hkey : authLimiter.keyGenerator r = r.ip := rfl
    rw [hstore, hstore2, hkey]
    exact effCount_increment s r.ip now authLimiter.windowMs (by norm_num [authLimiter])

/-- C6 (witness): one valid-credential request leaves the empty auth store
unchanged, and one invalid-credential request raises the client's count from
0 to 1. -/
theorem failures_only_counter_witness :
    gateRun 0 [goodReq] emptyStore = emptyStore ∧
    effCount ((validateApiKey badReq emptyStore 0).2) badReq.ip 0 authLimiter.windowMs =
      effCount emptyStore badReq.ip 0 authLimiter.windowMs + 1 :=
  ⟨(failures_only_counter 0).1 [goodReq] (by decide) emptyStore,
   (failures_only_counter 0).2 badReq emptyStore (by decide) (by decide)⟩

/-- C9: the create-route middleware chain evaluates its tiers in mounting
order — general IP tier, per-API-key tier, create tier — the first tier to
reject returns its own rejection response with every later tier's store
untouched, and the business handler runs exactly when no tier rejects. -/
theorem create_route_chain_order (req : Request) (st : PipelineState) (now : Nat) :
    (∀ r, (evaluate apiLimiter st.apiStore req now).1 = Decision.rejected r →
      createRoutePipeline req st now =
        (some r, { apiStore := (evaluate apiLimiter st.apiStore req now).2,
                   keyStore := st.keyStore, createStore := st.createStore }, false)) ∧
    (∀ r, (evaluate apiLimiter st.apiStore req now).1 = Decision.admitted →
      (evaluate perKeyLimiter st.keyStore req now).1 = Decision.rejected r →
      createRoutePipeline req st now =
        (some r, { apiStore := (evaluate apiLimiter st.apiStore req now).2,
                   keyStore := (evaluate perKeyLimiter st.keyStore req now).2,
                   createStore := st.createStore }, false)) ∧
    (∀ r, (evaluate apiLimiter st.apiStore req now).1 = Decision.admitted →
      (evaluate perKeyLimiter st.keyStore req now).1 = Decision.admitted →
      (evaluate createLimiter st.createStore req now).1 = Decision.rejected r →
      createRoutePipeline req st now =
        (some r, { apiStore := (evaluate apiLimiter st.apiStore req now).2,
                   keyStore := (evaluate perKeyLimiter st.keyStore req now).2,
                   createStore := (evaluate createLimiter st.createStore req now).2 }, false)) ∧
    ((createRoutePipeline req st now).2.2 = true ↔ (createRoutePipeline req st now).1 = none) := by
  refine ⟨?_, ?_, ?_, ?_⟩
  · intro r h1
    simp [createRoutePipeline, h1]
  · intro r h1 h2
    simp [createRoutePipeline, h1, h2]
  · intro r h1 h2 h3
    simp [createRoutePipeline, h1, h2, h3]
  · rcases h1 : (evaluate apiLimiter st.apiStore req now).1 with _ | r1 <;>
      rcases h2 : (evaluate perKeyLimiter st.keyStore req now).1 with _ | r2 <;>
      rcases h3 : (evaluate createLimiter st.createStore req now).1 with _ | r3 <;>
      simp [createRoutePipeline, h1, h2, h3]

/-- C9 (witness): with the general tier's window already at its quota of 100,
a create-route request is rejected with the general tier's 429 response and
the business handler is not invoked. -/
theorem create_route_chain_order_witness :
    (createRoutePipeline noKeyReq st100 0).1 = some generalRejection ∧
    (createRoutePipeline noKeyReq st100 0).2.2 = false := by
  have h := (create_route_chain_order noKeyReq st100 0).1 generalRejection (by decide)
  exact ⟨by rw [h], by rw [h]⟩
